import Mathlib

/-!
Verification of the bookstore cache-aside data-access layer
(`src/backend/server.js`) against its natural-language specification.

The JavaScript handlers, cache helpers and validators are shallowly
embedded as pure Lean functions.  Request values are JSON-shaped
JavaScript values; JS numbers are modelled as rationals (JSON cannot
carry `NaN` or infinities).  Store behaviour that lives outside the
repository's application code (the MySQL schema and driver) is modelled
from the spec where noted.
-/

namespace Bookstore

/-- JSON-shaped JavaScript values as produced by `express.json()`, plus
`undef` for an absent property (`req.body.x` when `x` is not sent).
JSON numbers are finite, so they are modelled as rationals. -/
inductive JSValue where
  | undef
  | null
  | bool (b : Bool)
  | num (q : ℚ)
  | str (s : String)
  | arr (elems : List JSValue)
  | obj

/-- JavaScript truthiness of a JSON-shaped value (`if (v)`). -/
def truthy : JSValue → Bool
  | .undef => false
  | .null => false
  | .bool b => b
  | .num q => q != 0
  | .str s => !s.isEmpty
  | .arr _ => true
  | .obj => true

/-- Result of JavaScript `parseFloat`: `NaN`, an infinity, or a finite
number. -/
inductive PNum where
  | nan
  | pinf
  | ninf
  | fin (q : ℚ)
  deriving DecidableEq, Repr

/-- The characters matched by `\s` in a JavaScript regular expression
(and skipped by `parseFloat`/`parseInt`). -/
def jsWhitespace (c : Char) : Bool :=
  ['\t', '\n', '\x0b', '\x0c', '\r', ' ', '\u00a0', '\u1680',
   '\u2000', '\u2001', '\u2002', '\u2003', '\u2004', '\u2005',
   '\u2006', '\u2007', '\u2008', '\u2009', '\u200a', '\u2028',
   '\u2029', '\u202f', '\u205f', '\u3000', '\ufeff'].contains c

/-- Numeric value of a decimal digit character. -/
def digitVal (c : Char) : ℕ := c.toNat - '0'.toNat

/-- Value of a list of decimal digits read left to right. -/
def digitsToNat (l : List Char) : ℕ := l.foldl (fun a c => 10 * a + digitVal c) 0

/-- Hexadecimal digit test (for `parseInt`'s `0x` prefix). -/
def jsIsHexDigit (c : Char) : Bool :=
  c.isDigit || ('a' ≤ c && c ≤ 'f') || ('A' ≤ c && c ≤ 'F')

/-- Numeric value of a hexadecimal digit character. -/
def hexVal (c : Char) : ℕ :=
  if c.isDigit then c.toNat - '0'.toNat
  else if 'a' ≤ c && c ≤ 'f' then c.toNat - 'a'.toNat + 10
  else c.toNat - 'A'.toNat + 10

/-- Value of a list of hexadecimal digits read left to right. -/
def hexToNat (l : List Char) : ℕ := l.foldl (fun a c => 16 * a + hexVal c) 0

/-- Smallest `k` with `d ∣ 10 ^ k`, searched up to 1100 (enough for
every IEEE double denominator, which is a power of two up to 2^1074). -/
def findPow10 (d : ℕ) : Option ℕ :=
  (List.range 1100).find? (fun k => 10 ^ k % d == 0)

/-- Decimal digits of a natural number, width-padded with leading zeros. -/
def natDigitsPadded (n width : ℕ) : String :=
  let s := toString n
  String.mk (List.replicate (width - s.length) '0') ++ s

/-- JavaScript `Number.prototype.toString` for a finite number, modelled
exactly for values whose denominator divides a power of ten (every IEEE
double is of this form).  The exponential notations JS switches to for
magnitudes `≥ 1e21` or `< 1e-6` are not modelled; no theorem below
depends on stringifying numbers in those ranges. -/
def ratToString (q : ℚ) : String :=
  let sign := if q < 0 then "-" else ""
  let n := q.num.natAbs
  let d := q.den
  match findPow10 d with
  | none => "0"
  | some k =>
    let scaled := n * 10 ^ k / d
    let ip := scaled / 10 ^ k
    let fp := scaled % 10 ^ k
    if fp = 0 then sign ++ toString ip
    else
      let fs := (natDigitsPadded fp k).dropRightWhile (· == '0')
      sign ++ toString ip ++ "." ++ fs

mutual

/-- JavaScript `ToString` on JSON-shaped values. -/
def jsToString : JSValue → String
  | .undef => "undefined"
  | .null => "null"
  | .bool true => "true"
  | .bool false => "false"
  | .num q => ratToString q
  | .str s => s
  | .arr l => arrJoin l
  | .obj => "[object Object]"
termination_by v => (sizeOf v, 1)

/-- `Array.prototype.toString`: elements joined with commas. -/
def arrJoin : List JSValue → String
  | [] => ""
  | [v] => elemString v
  | v :: vs => elemString v ++ "," ++ arrJoin vs
termination_by l => (sizeOf l, 0)

/-- An array element stringifies like the value, except that `null` and
`undefined` elements become the empty string. -/
def elemString : JSValue → String
  | .undef => ""
  | .null => ""
  | v => jsToString v
termination_by v => (sizeOf v, 2)

end

/-- JavaScript `parseFloat` on a string: skip leading whitespace, read an
optional sign, then the longest prefix that is a decimal literal
(`Infinity`, digits with optional fraction, or a bare fraction, with an
optional exponent part). -/
def parseFloatStr (s : String) : PNum :=
  let l := s.data.dropWhile jsWhitespace
  let signNeg : Bool := l.head? = some '-'
  let l := if l.head? = some '-' ∨ l.head? = some '+' then l.drop 1 else l
  if l.take 8 = "Infinity".data then
    if signNeg then .ninf else .pinf
  else
    let ip := l.takeWhile Char.isDigit
    let l1 := l.drop ip.length
    let fp := if l1.head? = some '.' then (l1.drop 1).takeWhile Char.isDigit else []
    let l2 := if l1.head? = some '.' then (l1.drop 1).drop fp.length else l1
    if ip.isEmpty && fp.isEmpty then .nan
    else
      let mant : ℚ := (digitsToNat ip : ℚ) + (digitsToNat fp : ℚ) / (10 ^ fp.length : ℚ)
      let expv : ℤ :=
        if l2.head? = some 'e' ∨ l2.head? = some 'E' then
          let r := l2.drop 1
          let esignNeg : Bool := r.head? = some '-'
          let r := if r.head? = some '-' ∨ r.head? = some '+' then r.drop 1 else r
          let ed := r.takeWhile Char.isDigit
          if ed.isEmpty then 0
          else if esignNeg then -(digitsToNat ed : ℤ) else (digitsToNat ed : ℤ)
        else 0
      .fin ((if signNeg then (-1 : ℚ) else 1) * mant * (10 : ℚ) ^ expv)

/-- JavaScript `parseInt` (radix unspecified) on a string: skip leading
whitespace, read an optional sign, then either a `0x`/`0X`-prefixed run
of hexadecimal digits or a run of decimal digits; an empty run is `NaN`
(`none`). -/
def parseIntStr (s : String) : Option ℤ :=
  let l := s.data.dropWhile jsWhitespace
  let signNeg : Bool := l.head? = some '-'
  let l := if l.head? = some '-' ∨ l.head? = some '+' then l.drop 1 else l
  let isHex : Bool :=
    match l with
    | '0' :: c :: _ => c = 'x' ∨ c = 'X'
    | _ => false
  if isHex then
    let hd := (l.drop 2).takeWhile jsIsHexDigit
    if hd.isEmpty then none
    else some ((if signNeg then -1 else 1) * (hexToNat hd : ℤ))
  else
    let dd := l.takeWhile Char.isDigit
    if dd.isEmpty then none
    else some ((if signNeg then -1 else 1) * (digitsToNat dd : ℤ))

/-- JavaScript `parseFloat` on a JSON-shaped value: the argument is
converted with `ToString` and the string is parsed.  For a number the
round trip returns the number itself, so that case is short-circuited. -/
def parseFloatVal : JSValue → PNum
  | .num q => .fin q
  | v => parseFloatStr (jsToString v)

/-- JavaScript `parseInt` on a JSON-shaped value: the argument is
converted with `ToString` and the string is parsed.  For a number the
round trip truncates toward zero (exact for magnitudes below `1e21`,
above which JS stringifies in exponential notation; no theorem below
depends on that range). -/
def parseIntVal : JSValue → Option ℤ
  | .num q => some (Int.tdiv q.num (q.den : ℤ))
  | v => parseIntStr (jsToString v)

/-- Language of the source's `isbn10Regex = /^(?:\d{9}X|\d{10})$/`:
either nine digits followed by a literal `X`, or ten digits. -/
def isbn10Test (l : List Char) : Bool :=
  (l.length == 10 && (l.take 9).all Char.isDigit && l.getD 9 ' ' == 'X')
    || (l.length == 10 && l.all Char.isDigit)

/-- Language of the source's `isbn13Regex = /^(?:97[89]\d{10})$/`:
`9`, `7`, then `8` or `9`, then ten digits. -/
def isbn13Test (l : List Char) : Bool :=
  l.length == 13 && l.getD 0 ' ' == '9' && l.getD 1 ' ' == '7'
    && (l.getD 2 ' ' == '8' || l.getD 2 ' ' == '9')
    && (l.drop 3).all Char.isDigit

/-- `isbn.replace(/[-\s]/g, '')`: drop every hyphen and whitespace
character. -/
def cleanIsbn (isbn : String) : List Char :=
  isbn.data.filter (fun c => !(c == '-' || jsWhitespace c))

/-- `validateISBN` on a string argument: `isbn.replace(/[-\s]/g, '')`
followed by the two regex tests. -/
def validateISBNStr (isbn : String) : Bool :=
  isbn10Test (cleanIsbn isbn) || isbn13Test (cleanIsbn isbn)

/-- A JavaScript runtime exception escaping a validator. -/
inductive JsError where
  | typeError
  deriving DecidableEq, Repr

/-- `validateISBN` as called by the handlers: on a non-string argument
`isbn.replace` is not a function, so the call raises a `TypeError`
instead of returning a verdict. -/
def validateISBN : JSValue → Except JsError Bool
  | .str s => .ok (validateISBNStr s)
  | _ => .error .typeError

/-- `validatePrice`: `parseFloat` the argument, then
`!isNaN(numPrice) && numPrice >= 0 && numPrice <= 10000`.
`parseFloat` never raises on a JSON-shaped value, so the verdict is a
plain Boolean. -/
def validatePrice (price : JSValue) : Bool :=
  match parseFloatVal price with
  | .nan => false          -- isNaN(numPrice)
  | .pinf => false         -- numPrice <= 10000 fails
  | .ninf => false         -- numPrice >= 0 fails
  | .fin q => decide (0 ≤ q) && decide (q ≤ 10000)

/-- `validateStock`: `parseInt` the argument, then
`!isNaN(numStock) && numStock >= 0 && numStock <= 100000`.
`parseInt` never yields an infinity. -/
def validateStock (stock : JSValue) : Bool :=
  match parseIntVal stock with
  | none => false          -- isNaN(numStock)
  | some n => decide (0 ≤ n) && decide (n ≤ 100000)

/-- `validatePrice` seen as a possibly-raising call, for uniformity with
`validateISBN`: it always returns a verdict. -/
def validatePriceE (price : JSValue) : Except JsError Bool := .ok (validatePrice price)

/-- `validateStock` seen as a possibly-raising call: it always returns a
verdict. -/
def validateStockE (stock : JSValue) : Except JsError Bool := .ok (validateStock stock)

/-- Is the value JavaScript `undefined`? (`price !== undefined`). -/
def isUndef : JSValue → Bool
  | .undef => true
  | _ => false

/-- JavaScript `v || 0`: the value itself when truthy, otherwise `0` —
how the create handler defaults `price` and `stock`. -/
def orZero (v : JSValue) : JSValue := if truthy v then v else .num 0

/-- A row of the `books` table.  `id` is store-assigned; the remaining
columns hold the JavaScript values the Coordinator bound into the
parameterized query (`created_at`/`updated_at` are modelled by the row's
position: the store keeps rows newest-first, matching
`ORDER BY created_at DESC`). -/
structure Row where
  id : ℤ
  title : JSValue
  author : JSValue
  isbn : JSValue
  price : JSValue
  stock : JSValue

/-- State of the persistent store: rows newest-first, the next
auto-increment id, and reachability (`up = false` makes every query
fail like a connection error). -/
structure StoreState where
  rows : List Row
  nextId : ℤ
  up : Bool

/-- How a store query fails: `dup` is MySQL's `ER_DUP_ENTRY` (unique
`isbn` index), `other` covers connection errors and driver failures —
the handlers treat every non-`dup` failure alike. -/
inductive StoreErr where
  | dup
  | other
  deriving DecidableEq, Repr

/-- Modelled from the spec: the store's unique-`isbn` comparison.  The
`isbn` column is a string column, two non-NULL equal strings conflict,
and `NULL`s never conflict; non-string bound values never reach a
conflict check on a validated path. -/
def isbnConflict (a b : JSValue) : Bool :=
  match a, b with
  | .str x, .str y => x == y
  | _, _ => false

/-- Is the value SQL/JavaScript `null`? -/
def isNull : JSValue → Bool
  | .null => true
  | _ => false

/-- What `pool.query` actually sends for a bound parameter: the mysql2
3.6.5 `query()` path (used by every handler) interpolates values
client-side via sqlstring, which renders JavaScript `undefined` as SQL
`NULL`; every other JSON-shaped value is passed through. -/
def bindParam (v : JSValue) : JSValue := if isUndef v then .null else v

/-- Modelled from the spec (§4.1 `insert`) and the repository's schema
(`src/docs/API.md`): `INSERT INTO books (title, author, isbn, price,
stock) VALUES (?, ?, ?, ?, ?)` — fails when the store is unreachable;
fails when `NULL` is bound into one of the `NOT NULL` columns `title`,
`author`, `isbn` (`price` and `stock` are nullable); fails with `dup`
when the `isbn` value is already present (unique index); otherwise
assigns the next id and prepends the new (newest) row with the
interpolated values. -/
def insertRow (st : StoreState) (t a i p s : JSValue) : Except StoreErr (ℤ × StoreState) :=
  if !st.up then .error .other
  else if isNull (bindParam t) || isNull (bindParam a) || isNull (bindParam i) then
    .error .other
  else if st.rows.any (fun r => isbnConflict r.isbn (bindParam i)) then .error .dup
  else
    .ok (st.nextId,
      { rows := ⟨st.nextId, bindParam t, bindParam a, bindParam i,
          bindParam p, bindParam s⟩ :: st.rows,
        nextId := st.nextId + 1,
        up := st.up })

/-- The per-row effect of `UPDATE books SET title = ?, author = ?,
isbn = ?, price = ?, stock = ?, updated_at = NOW() WHERE id = ?`: a row
matching the id gets every column overwritten with the bound values. -/
def applyUpdate (id : ℤ) (t a i p s : JSValue) (r : Row) : Row :=
  if r.id == id then ⟨r.id, t, a, i, p, s⟩ else r

/-- Modelled from the spec (§4.1 `update`) and the repository's schema
and driver (`src/docs/API.md`): `UPDATE books SET … WHERE id = ?` with
values interpolated by `query()` (`undefined` becomes SQL `NULL`) —
fails when the store is unreachable; when no row matches the id nothing
is written and zero affected rows are reported; writing `NULL` into one
of the `NOT NULL` columns `title`, `author`, `isbn` fails (`price` and
`stock` are nullable, so `NULL` stores there); moving `isbn` onto a
different row's value violates the unique index (`dup`); otherwise
every matching row is overwritten (ids are unique in the store) and the
affected-row count reported (`updated_at = NOW()` makes a matched row
count as changed). -/
def updateRow (st : StoreState) (id : ℤ) (t a i p s : JSValue) :
    Except StoreErr (ℕ × StoreState) :=
  if !st.up then .error .other
  else if st.rows.countP (fun r => r.id == id) = 0 then .ok (0, st)
  else if isNull (bindParam t) || isNull (bindParam a) || isNull (bindParam i) then
    .error .other
  else if st.rows.any (fun r => !(r.id == id) && isbnConflict r.isbn (bindParam i)) then
    .error .dup
  else
    .ok (st.rows.countP (fun r => r.id == id),
      { st with rows := st.rows.map (applyUpdate id (bindParam t) (bindParam a) (bindParam i) (bindParam p) (bindParam s)) })

/-- Modelled from the spec (§4.1 `delete`): `DELETE FROM books WHERE
id = ?` — fails when unreachable; otherwise removes the matching rows
and reports how many were affected. -/
def deleteRowStore (st : StoreState) (id : ℤ) : Except StoreErr (ℕ × StoreState) :=
  if !st.up then .error .other
  else
    let affected := st.rows.countP (fun r => r.id == id)
    .ok (affected, { st with rows := st.rows.filter (fun r => !(r.id == id)) })

/-- Modelled from the spec (§4.1 `fetchAll`): `SELECT * FROM books ORDER
BY created_at DESC` — the rows, newest first. -/
def fetchAll (st : StoreState) : Except StoreErr (List Row) :=
  if !st.up then .error .other else .ok st.rows

/-- Modelled from the spec (§4.1 `fetchById`): `SELECT * FROM books
WHERE id = ?` — at most one row. -/
def fetchById (st : StoreState) (id : ℤ) : Except StoreErr (Option Row) :=
  if !st.up then .error .other else .ok (st.rows.find? (fun r => r.id == id))

/-- A cached JSON document: the serialized snapshot of one book or of
the full collection (the only shapes `setToCache` ever stores, per the
spec's data model). -/
inductive CacheEntry where
  | row (r : Row)
  | collection (l : List Row)

/-- State of the Redis cache: `connected` is `redisClient?.isOpen`;
`entries` maps keys to cached documents (an association list, newest
binding first). -/
structure CacheState where
  connected : Bool
  entries : List (String × CacheEntry)

/-- `getFromCache(key)`: absence when disconnected, otherwise the entry
under the key (transport errors are logged and swallowed into absence,
so a fault-free connected cache is modelled). -/
def getFromCache (c : CacheState) (key : String) : Option CacheEntry :=
  if c.connected then c.entries.lookup key else none

/-- `setToCache(key, data)`: a no-op when disconnected, otherwise binds
the key (failure is logged and swallowed). -/
def setToCache (c : CacheState) (key : String) (e : CacheEntry) : CacheState :=
  if c.connected then
    { c with entries := (key, e) :: c.entries.filter (fun p => !(p.1 == key)) }
  else c

/-- `invalidateCache()`: a no-op when disconnected, otherwise deletes
every key matching the default pattern `books:*` and the collection key
`books:all` (itself a `books:`-prefixed key). -/
def invalidateCache (c : CacheState) : CacheState :=
  if c.connected then
    { c with entries := c.entries.filter (fun p => !(p.1.startsWith "books:")) }
  else c

/-- Cache key for a single book, `books:${id}`. -/
def bookKey (id : ℤ) : String := "books:" ++ toString id

/-- A response body (`res.json(...)` argument).  `book r fromCache`
carries whether the handler added the `fromCache: true` marker;
`createdEcho`/`updatedEcho` echo the submitted fields (an `undef` field
is omitted from the serialized JSON); `collectionSpread` is the object
produced by spreading a cached collection in the single-book hit path
(shape-confused, never equal to a plain array). -/
inductive Body where
  | books (l : List Row)
  | book (r : Row) (fromCache : Bool)
  | collectionSpread (l : List Row)
  | createdEcho (id : ℤ) (t a i p s : JSValue)
  | updatedEcho (id : ℤ) (t a i p s : JSValue)
  | errMsg (s : String)
  | okMsg (s : String)

/-- An HTTP response: status code and JSON body. -/
structure Resp where
  status : ℕ
  body : Body

/-- The whole data layer: store and cache. -/
structure Sys where
  store : StoreState
  cache : CacheState

/-- A cached document served untouched by `res.json(cached)`. -/
def entryBody : CacheEntry → Body
  | .row r => .book r false
  | .collection l => .books l

/-- A cached document served as `{ ...cached, fromCache: true }`. -/
def entryBodyMarked : CacheEntry → Body
  | .row r => .book r true
  | .collection l => .collectionSpread l

/-- `GET /api/books`: cache hit on `books:all` returns the cached
collection; otherwise fetch all rows, populate the cache, and return
them; a store failure is a 500. -/
def readAllH (s : Sys) : Resp × Sys :=
  match getFromCache s.cache "books:all" with
  | some e => (⟨200, entryBody e⟩, s)
  | none =>
    match fetchAll s.store with
    | .error _ => (⟨500, .errMsg "Failed to fetch books"⟩, s)
    | .ok rows =>
      (⟨200, .books rows⟩,
       { s with cache := setToCache s.cache "books:all" (.collection rows) })

/-- `GET /api/books/:id`: cache hit returns the cached document plus a
`fromCache: true` marker; on a miss, a missing row is a 404, a found
row is returned and cached; a store failure is a 500. -/
def readOneH (s : Sys) (id : ℤ) : Resp × Sys :=
  match getFromCache s.cache (bookKey id) with
  | some e => (⟨200, entryBodyMarked e⟩, s)
  | none =>
    match fetchById s.store id with
    | .error _ => (⟨500, .errMsg "Failed to fetch book"⟩, s)
    | .ok none => (⟨404, .errMsg "Book not found"⟩, s)
    | .ok (some r) =>
      (⟨200, .book r false⟩,
       { s with cache := setToCache s.cache (bookKey id) (.row r) })

/-- The five fields destructured from a JSON request body; a field the
client did not send is `undef`. -/
structure ReqBody where
  title : JSValue
  author : JSValue
  isbn : JSValue
  price : JSValue
  stock : JSValue

/-- `POST /api/books`: required-field check, ISBN/price/stock
validation (a `TypeError` escaping `validateISBN` is caught by the
route's `try` and yields the generic 500), then the insert with
`price || 0` and `stock || 0`, cache invalidation, and a 201 echoing
the submitted fields. -/
def createH (s : Sys) (b : ReqBody) : Resp × Sys :=
  if !truthy b.title || !truthy b.author || !truthy b.isbn then
    (⟨400, .errMsg "Title, author, and ISBN are required"⟩, s)
  else
    match validateISBN b.isbn with
    | .error _ => (⟨500, .errMsg "Failed to create book"⟩, s)
    | .ok isbnOk =>
      if !isbnOk then
        (⟨400, .errMsg "Invalid ISBN format. Must be ISBN-10 or ISBN-13"⟩, s)
      else if !isUndef b.price && !validatePrice b.price then
        (⟨400, .errMsg "Invalid price. Must be between 0 and 10000"⟩, s)
      else if !isUndef b.stock && !validateStock b.stock then
        (⟨400, .errMsg "Invalid stock. Must be between 0 and 100000"⟩, s)
      else
        match insertRow s.store b.title b.author b.isbn (orZero b.price) (orZero b.stock) with
        | .error .dup => (⟨409, .errMsg "Book with this ISBN already exists"⟩, s)
        | .error .other => (⟨500, .errMsg "Failed to create book"⟩, s)
        | .ok (newId, st) =>
          (⟨201, .createdEcho newId b.title b.author b.isbn b.price b.stock⟩,
           { store := st, cache := invalidateCache s.cache })

/-- `PUT /api/books/:id`: `if (isbn && !validateISBN(isbn))` — the ISBN
is validated only when truthy, and a `TypeError` escaping the validator
is caught into the generic 500; price/stock validated when defined;
then the update with the raw submitted fields.  The route's catch block
has no `ER_DUP_ENTRY` branch, so a duplicate-isbn failure is also the
generic 500.  Zero affected rows is the 404; success invalidates the
cache and echoes the submitted fields with the parsed id. -/
def updateH (s : Sys) (id : ℤ) (b : ReqBody) : Resp × Sys :=
  match (if truthy b.isbn then validateISBN b.isbn else .ok true) with
  | .error _ => (⟨500, .errMsg "Failed to update book"⟩, s)
  | .ok isbnOk =>
    if !isbnOk then
      (⟨400, .errMsg "Invalid ISBN format. Must be ISBN-10 or ISBN-13"⟩, s)
    else if !isUndef b.price && !validatePrice b.price then
      (⟨400, .errMsg "Invalid price. Must be between 0 and 10000"⟩, s)
    else if !isUndef b.stock && !validateStock b.stock then
      (⟨400, .errMsg "Invalid stock. Must be between 0 and 100000"⟩, s)
    else
      match updateRow s.store id b.title b.author b.isbn b.price b.stock with
      | .error _ => (⟨500, .errMsg "Failed to update book"⟩, s)
      | .ok (0, _) => (⟨404, .errMsg "Book not found"⟩, s)
      | .ok (_ + 1, st) =>
        (⟨200, .updatedEcho id b.title b.author b.isbn b.price b.stock⟩,
         { store := st, cache := invalidateCache s.cache })

/-- `DELETE /api/books/:id`: zero affected rows is the 404; success
invalidates the cache and acknowledges; a store failure is a 500. -/
def deleteH (s : Sys) (id : ℤ) : Resp × Sys :=
  match deleteRowStore s.store id with
  | .error _ => (⟨500, .errMsg "Failed to delete book"⟩, s)
  | .ok (0, _) => (⟨404, .errMsg "Book not found"⟩, s)
  | .ok (_ + 1, st) =>
    (⟨200, .okMsg "Book deleted successfully"⟩,
     { store := st, cache := invalidateCache s.cache })

/-- A Coordinator operation. -/
inductive Op where
  | readAll
  | readOne (id : ℤ)
  | create (b : ReqBody)
  | update (id : ℤ) (b : ReqBody)
  | del (id : ℤ)

/-- Execute one Coordinator operation against the data layer. -/
def exec (s : Sys) : Op → Resp × Sys
  | .readAll => readAllH s
  | .readOne id => readOneH s id
  | .create b => createH s b
  | .update id b => updateH s id b
  | .del id => deleteH s id

/-- Observable outcome of `startServer()`: how many `initDatabase`
attempts ran, whether the `pool` variable was ever assigned (it is
assigned by `mysql.createPool` at the top of `initDatabase`, before the
connection attempt, and `createPool` itself performs no network I/O),
whether a connection attempt succeeded, total milliseconds slept, and
whether the process exited before `app.listen` versus started the HTTP
listener. -/
structure StartResult where
  attempts : ℕ
  poolAssigned : Bool
  dbConnected : Bool
  sleptMs : ℕ
  exited : Bool
  listening : Bool
  deriving DecidableEq, Repr

/-- The retry loop of `startServer`: `while (retries > 0)` call
`initDatabase`, break on success, otherwise sleep 5000 ms and decrement.
`connectOk n` tells whether the `n`-th (0-based) `getConnection`
succeeds.  Returns (connected, attempts made, ms slept). -/
def dbRetryLoop (connectOk : ℕ → Bool) : ℕ → ℕ → Bool × ℕ × ℕ
  | 0, n => (false, n, 0)
  | retries + 1, n =>
    if connectOk n then (true, n + 1, 0)
    else
      let (c, a, ms) := dbRetryLoop connectOk retries (n + 1)
      (c, a, ms + 5000)

/-- `startServer()`: run the retry loop with `retries = 5`; then
`if (!pool) { process.exit(1) }` — but `pool` was assigned on the first
`initDatabase` call whether or not the connection succeeded — then
`initRedis` and `app.listen`. -/
def startServer (connectOk : ℕ → Bool) : StartResult :=
  let (connected, attempts, sleptMs) := dbRetryLoop connectOk 5 0
  let poolAssigned := attempts != 0
  if !poolAssigned then
    { attempts, poolAssigned, dbConnected := connected, sleptMs,
      exited := true, listening := false }
  else
    { attempts, poolAssigned, dbConnected := connected, sleptMs,
      exited := false, listening := true }

/-- The claim's reading of the ISBN-10 shape: ten characters, the first
nine digits, the last a digit or `X`. -/
def isbn10Claim (l : List Char) : Bool :=
  l.length == 10 && (l.take 9).all Char.isDigit
    && (Char.isDigit (l.getD 9 ' ') || l.getD 9 ' ' == 'X')

/-- The claim's reading of the ISBN-13 shape: thirteen digits beginning
with `978` or `979`. -/
def isbn13Claim (l : List Char) : Bool :=
  l.length == 13 && l.all Char.isDigit
    && (l.take 3 == ['9', '7', '8'] || l.take 3 == ['9', '7', '9'])

/-- Force the Cache Gateway into its disconnected state, leaving the
store untouched. -/
def disconnect (s : Sys) : Sys :=
  { s with cache := { s.cache with connected := false } }

/-- Erase the `fromCache` marker from a response body, keeping every
store-derived field. -/
def stripMark : Body → Body
  | .book r _ => .book r false
  | b => b

/-- The cache agrees with the store: a cached collection is the store's
current ordered row list, and a cached single book is the store's row
with that id.  This holds for every cache state produced by normal
operation (entries are only written from fresh store reads and every
write invalidates them). -/
def coherent (s : Sys) : Prop :=
  (∀ e, s.cache.entries.lookup "books:all" = some e → e = .collection s.store.rows) ∧
  (∀ (id : ℤ) (e), s.cache.entries.lookup (bookKey id) = some e →
    ∃ r, s.store.rows.find? (fun r => r.id == id) = some r ∧ e = .row r)

/-- The stored price is, numerically, a number in `[0, 10000]`. -/
def priceInRange (v : JSValue) : Prop :=
  ∃ q : ℚ, parseFloatVal v = .fin q ∧ 0 ≤ q ∧ q ≤ 10000

/-- The stored stock is, as the integer the system reads from it, in
`[0, 100000]`. -/
def stockInRange (v : JSValue) : Prop :=
  ∃ n : ℤ, parseIntVal v = some n ∧ 0 ≤ n ∧ n ≤ 100000

lemma isbn10_test_eq_claim (l : List Char) : isbn10Test l = isbn10Claim l := by
  rcases l with _ | ⟨c0, l⟩
  · rfl
  rcases l with _ | ⟨c1, l⟩
  · rfl
  rcases l with _ | ⟨c2, l⟩
  · rfl
  rcases l with _ | ⟨c3, l⟩
  · rfl
  rcases l with _ | ⟨c4, l⟩
  · rfl
  rcases l with _ | ⟨c5, l⟩
  · rfl
  rcases l with _ | ⟨c6, l⟩
  · rfl
  rcases l with _ | ⟨c7, l⟩
  · rfl
  rcases l with _ | ⟨c8, l⟩
  · rfl
  rcases l with _ | ⟨c9, l⟩
  · rfl
  rcases l with _ | ⟨c10, l⟩
  · simp only [isbn10Test, isbn10Claim, List.length_cons, List.length_nil, List.take_succ_cons,
      List.take_zero, List.all_cons, List.all_nil, List.getD_cons_succ, List.getD_cons_zero,
      Bool.and_true, beq_self_eq_true, Bool.true_and]
    rw [Bool.eq_iff_iff]
    simp only [Bool.or_eq_true, Bool.and_eq_true]
    tauto
  · rfl

lemma isbn13_test_eq_claim (l : List Char) : isbn13Test l = isbn13Claim l := by
  rcases l with _ | ⟨c0, l⟩
  · rfl
  rcases l with _ | ⟨c1, l⟩
  · rfl
  rcases l with _ | ⟨c2, l⟩
  · rfl
  rcases l with _ | ⟨c3, l⟩
  · rfl
  rcases l with _ | ⟨c4, l⟩
  · rfl
  rcases l with _ | ⟨c5, l⟩
  · rfl
  rcases l with _ | ⟨c6, l⟩
  · rfl
  rcases l with _ | ⟨c7, l⟩
  · rfl
  rcases l with _ | ⟨c8, l⟩
  · rfl
  rcases l with _ | ⟨c9, l⟩
  · rfl
  rcases l with _ | ⟨c10, l⟩
  · rfl
  rcases l with _ | ⟨c11, l⟩
  · rfl
  rcases l with _ | ⟨c12, l⟩
  · rfl
  rcases l with _ | ⟨c13, l⟩
  · simp only [isbn13Test, isbn13Claim, List.length_cons, List.length_nil, List.take_succ_cons,
      List.take_zero, List.all_cons, List.all_nil, List.getD_cons_succ, List.getD_cons_zero,
      List.drop_succ_cons, List.drop_zero, Bool.and_true, beq_self_eq_true, Bool.true_and,
      List.cons.injEq, List.cons_eq_cons]
    rw [Bool.eq_iff_iff]
    simp only [Bool.or_eq_true, Bool.and_eq_true, beq_iff_eq]
    constructor
    · rintro ⟨⟨⟨h0, h1⟩, h89⟩, hrest⟩
      subst h0; subst h1
      rcases h89 with h2 | h2
      · subst h2
        exact ⟨⟨by decide, by decide, by decide, hrest⟩, Or.inl rfl⟩
      · subst h2
        exact ⟨⟨by decide, by decide, by decide, hrest⟩, Or.inr rfl⟩
    · rintro ⟨⟨_, _, _, hrest⟩, heq | heq⟩ <;>
        simp only [List.cons.injEq, and_true] at heq
      · obtain ⟨h0, h1, h2⟩ := heq
        exact ⟨⟨⟨h0, h1⟩, Or.inl h2⟩, hrest⟩
      · obtain ⟨h0, h1, h2⟩ := heq
        exact ⟨⟨⟨h0, h1⟩, Or.inr h2⟩, hrest⟩
  · rfl

lemma validatePrice_iff (v : JSValue) : validatePrice v = true ↔ priceInRange v := by
  unfold validatePrice priceInRange
  cases h : parseFloatVal v <;> simp

lemma validateStock_iff (v : JSValue) : validateStock v = true ↔ stockInRange v := by
  unfold validateStock stockInRange
  cases h : parseIntVal v <;> simp

lemma priceInRange_zero : priceInRange (.num 0) := ⟨0, rfl, le_refl 0, by norm_num⟩

lemma stockInRange_zero : stockInRange (.num 0) := by
  refine ⟨0, ?_, le_refl 0, by norm_num⟩
  show some (Int.tdiv (0 : ℚ).num ((0 : ℚ).den : ℤ)) = some 0
  rfl

/-- C5: after stripping hyphens and whitespace, the ISBN validator
accepts a string exactly when the remaining characters are ten digits
whose last may be `X` (ISBN-10) or thirteen digits beginning with `978`
or `979` (ISBN-13); the spec's validation table holds concretely. -/
theorem isbn_characterization :
    (∀ s : String,
      validateISBNStr s = (isbn10Claim (cleanIsbn s) || isbn13Claim (cleanIsbn s))) ∧
    validateISBNStr "0451524935" = true ∧
    validateISBNStr "043942089X" = true ∧
    validateISBNStr "9780451524935" = true ∧
    validateISBNStr "1234" = false ∧
    validateISBNStr "978045152493" = false := by
  refine ⟨fun s => ?_, by decide, by decide, by decide, by decide, by decide⟩
  unfold validateISBNStr
  rw [isbn10_test_eq_claim, isbn13_test_eq_claim]

/-- C6: the price validator accepts exactly the values that parse as a
finite number in `[0, 10000]`, the stock validator accepts exactly the
values that parse (as `parseInt` parses integers) to an integer in
`[0, 100000]`, and the spec's boundary table holds concretely. -/
theorem price_stock_characterization :
    (∀ v : JSValue, validatePrice v = true ↔ priceInRange v) ∧
    (∀ v : JSValue, validateStock v = true ↔ stockInRange v) ∧
    validatePrice (.num 10000) = true ∧
    validatePrice (.num 10000.01) = false ∧
    validatePrice (.num (-1)) = false ∧
    validateStock (.num 100000) = true ∧
    validateStock (.num 100001) = false := by
  refine ⟨validatePrice_iff, validateStock_iff, by decide, ?_, by decide, by decide, by decide⟩
  have h : (10000.01 : ℚ) ≤ 10000 ↔ False := by norm_num
  simp [validatePrice, parseFloatVal, h]

/-- C4 counterexample: called on the number `123` — a non-string,
malformed ISBN — `validateISBN` does not return a verdict at all: the
`isbn.replace` call raises a `TypeError`. -/
theorem validator_totality_cex :
    validateISBN (.num 123) = .error .typeError ∧
    ∀ b : Bool, validateISBN (.num 123) ≠ .ok b := by
  exact ⟨rfl, fun b h => by simp [validateISBN] at h⟩

/-- C4 amended: the price and stock validators return a pass/fail
verdict without raising for every JSON-shaped input, and the ISBN
validator does so for every string input; on a non-string input the
ISBN validator raises a `TypeError` instead. -/
theorem validator_totality :
    (∀ s : String, ∃ b : Bool, validateISBN (.str s) = .ok b) ∧
    (∀ v : JSValue, ∃ b : Bool, validatePriceE v = .ok b) ∧
    (∀ v : JSValue, ∃ b : Bool, validateStockE v = .ok b) ∧
    (∀ v : JSValue, (∀ s : String, v ≠ .str s) → validateISBN v = .error .typeError) := by
  refine ⟨fun s => ⟨validateISBNStr s, rfl⟩,
          fun v => ⟨validatePrice v, rfl⟩,
          fun v => ⟨validateStock v, rfl⟩,
          fun v hv => ?_⟩
  cases v with
  | str s => exact absurd rfl (hv s)
  | _ => rfl

/-- C4 witness: the amended totality at concrete inputs — the string
validator verdicts and the non-string `TypeError`. -/
theorem validator_totality_witness :
    validateISBN (.num 42) = .error .typeError :=
  validator_totality.2.2.2 (.num 42) (fun _ h => JSValue.noConfusion h)

/-- C2: with the database unreachable for the whole startup window, the
retry loop makes its 5 attempts (sleeping 5000 ms after each failure),
no attempt connects — and yet the process neither exits nor withholds
the listener: `app.listen` still runs, because the `!pool` guard tests
only that `mysql.createPool` assigned the pool handle, which already
happened during the first attempt. -/
theorem startup_all_attempts_fail :
    startServer (fun _ => false) =
      { attempts := 5, poolAssigned := true, dbConnected := false,
        sleptMs := 25000, exited := false, listening := true } := by
  rfl

lemma truthy_not_undef (v : JSValue) (h : truthy v = true) : isUndef v = false := by
  cases v <;> simp_all [truthy, isUndef]

/-- C8: reading an id with no record in the store — from any state whose
cache agrees with the store — returns the 404 and leaves no cache entry
under that id's key. -/
theorem readone_missing_no_populate (s : Sys) (id : ℤ) (hcoh : coherent s)
    (hup : s.store.up = true)
    (habs : s.store.rows.find? (fun r => r.id == id) = none) :
    (exec s (.readOne id)).1 = ⟨404, .errMsg "Book not found"⟩ ∧
    (exec s (.readOne id)).2.cache.entries.lookup (bookKey id) = none := by
  have hlook : s.cache.entries.lookup (bookKey id) = none := by
    cases h : s.cache.entries.lookup (bookKey id) with
    | none => rfl
    | some e =>
      obtain ⟨r, hr, -⟩ := hcoh.2 id e h
      rw [habs] at hr
      exact Option.noConfusion hr
  have hget : getFromCache s.cache (bookKey id) = none := by
    unfold getFromCache
    split <;> simp [hlook]
  simp [exec, readOneH, hget, fetchById, hup, habs, hlook]

/-- C8 witness: on an empty store with an empty connected cache,
Read-one(7) is a 404 and afterwards the cache has no entry under
`books:7`. -/
theorem readone_missing_no_populate_witness :
    (exec ⟨⟨[], 1, true⟩, ⟨true, []⟩⟩ (.readOne 7)).1 = ⟨404, .errMsg "Book not found"⟩ ∧
    (exec ⟨⟨[], 1, true⟩, ⟨true, []⟩⟩ (.readOne 7)).2.cache.entries.lookup (bookKey 7) = none :=
  readone_missing_no_populate ⟨⟨[], 1, true⟩, ⟨true, []⟩⟩ 7
    ⟨fun e h => by simp [List.lookup] at h, fun i e h => by simp [List.lookup] at h⟩
    rfl rfl

lemma isUndef_eq (v : JSValue) (h : isUndef v = true) : v = .undef := by
  cases v <;> simp_all [isUndef]

/-- C10: for every successful create, the 201 body echoes the submitted
field values while the stored record holds the interpolated defaults —
so whenever `price` or `stock` (or both) is omitted, the stored field is
0 but the response carries the submitted `undefined` (a property dropped
from the serialized JSON), and body and record disagree on each
defaulted field. -/
theorem create_default_echo_mismatch (s : Sys) (b : ReqBody)
    (h201 : (exec s (.create b)).1.status = 201) :
    ∃ newId r rest,
      (exec s (.create b)).2.store.rows = r :: rest ∧
      (exec s (.create b)).1.body =
        .createdEcho newId b.title b.author b.isbn b.price b.stock ∧
      (isUndef b.price = true → r.price = .num 0 ∧ b.price = .undef ∧ b.price ≠ r.price) ∧
      (isUndef b.stock = true → r.stock = .num 0 ∧ b.stock = .undef ∧ b.stock ≠ r.stock) := by
  by_cases h1 : (!truthy b.title || !truthy b.author || !truthy b.isbn) = true
  · simp [exec, createH, h1] at h201
  · cases hv : validateISBN b.isbn with
    | error e => simp [exec, createH, h1, hv] at h201
    | ok isbnOk =>
      cases isbnOk with
      | false => simp [exec, createH, h1, hv] at h201
      | true =>
        by_cases hp : (!isUndef b.price && !validatePrice b.price) = true
        · simp [exec, createH, h1, hv, hp] at h201
        · by_cases hs : (!isUndef b.stock && !validateStock b.stock) = true
          · simp [exec, createH, h1, hv, hp, hs] at h201
          · cases hIns : insertRow s.store b.title b.author b.isbn
              (orZero b.price) (orZero b.stock) with
            | error e => cases e <;> simp [exec, createH, h1, hv, hp, hs, hIns] at h201
            | ok p =>
              obtain ⟨newId, st⟩ := p
              have hIns' := hIns
              unfold insertRow at hIns'
              split at hIns'
              · exact absurd hIns' (by simp)
              · split at hIns'
                · exact absurd hIns' (by simp)
                · split at hIns'
                  · exact absurd hIns' (by simp)
                  · injection hIns' with h2
                    have hst : st =
                        { rows := ⟨s.store.nextId, bindParam b.title, bindParam b.author,
                            bindParam b.isbn, bindParam (orZero b.price),
                            bindParam (orZero b.stock)⟩ :: s.store.rows,
                          nextId := s.store.nextId + 1,
                          up := s.store.up } := (congrArg Prod.snd h2).symm
                    refine ⟨newId,
                      ⟨s.store.nextId, bindParam b.title, bindParam b.author,
                        bindParam b.isbn, bindParam (orZero b.price),
                        bindParam (orZero b.stock)⟩,
                      s.store.rows, ?_, ?_, ?_, ?_⟩
                    · simp [exec, createH, h1, hv, hp, hs, hIns, hst]
                    · simp [exec, createH, h1, hv, hp, hs, hIns]
                    · intro hpu
                      have hbp : b.price = .undef := isUndef_eq _ hpu
                      have hz : bindParam (orZero b.price) = .num 0 := by
                        rw [hbp]; rfl
                      refine ⟨hz, hbp, ?_⟩
                      show b.price ≠ bindParam (orZero b.price)
                      rw [hz, hbp]
                      simp
                    · intro hsu
                      have hbs : b.stock = .undef := isUndef_eq _ hsu
                      have hz : bindParam (orZero b.stock) = .num 0 := by
                        rw [hbs]; rfl
                      refine ⟨hz, hbs, ?_⟩
                      show b.stock ≠ bindParam (orZero b.stock)
                      rw [hz, hbs]
                      simp

/-- C10 witness: creating "Dune" with `price` omitted and stock 3 on an
empty store succeeds; the theorem applied there exhibits the stored 0
against the echoed absent price. -/
theorem create_default_echo_mismatch_witness :
    ∃ newId r rest,
      (exec ⟨⟨[], 1, true⟩, ⟨true, []⟩⟩
        (.create ⟨.str "Dune", .str "Frank Herbert", .str "0451524935",
          .undef, .num 3⟩)).2.store.rows = r :: rest ∧
      (exec ⟨⟨[], 1, true⟩, ⟨true, []⟩⟩
        (.create ⟨.str "Dune", .str "Frank Herbert", .str "0451524935",
          .undef, .num 3⟩)).1.body =
        .createdEcho newId (.str "Dune") (.str "Frank Herbert") (.str "0451524935")
          .undef (.num 3) ∧
      (isUndef JSValue.undef = true →
        r.price = .num 0 ∧ JSValue.undef = JSValue.undef ∧ JSValue.undef ≠ r.price) ∧
      (isUndef (JSValue.num 3) = true →
        r.stock = .num 0 ∧ JSValue.num 3 = JSValue.undef ∧ JSValue.num 3 ≠ r.stock) :=
  create_default_echo_mismatch ⟨⟨[], 1, true⟩, ⟨true, []⟩⟩
    ⟨.str "Dune", .str "Frank Herbert", .str "0451524935", .undef, .num 3⟩ rfl

/-- C3: the failing input evaluated — a PUT for existing book 1 that
omits `price` and `stock` passes validation (the `!== undefined` guards
skip both checks), succeeds with a 200, and stores SQL `NULL` for both
fields (`query()` interpolates `undefined` as `NULL` and the columns are
nullable), so the successfully written record has a missing price and a
missing stock: neither value parses as a number at all. -/
theorem update_omitted_fields_stores_null :
    (exec ⟨⟨[⟨1, .str "X", .str "Y", .str "0451524935", .num 5, .num 3⟩], 2, true⟩,
        ⟨false, []⟩⟩
      (.update 1 ⟨.str "T", .str "A", .str "0451524935", .undef, .undef⟩)).1.status = 200 ∧
    (exec ⟨⟨[⟨1, .str "X", .str "Y", .str "0451524935", .num 5, .num 3⟩], 2, true⟩,
        ⟨false, []⟩⟩
      (.update 1 ⟨.str "T", .str "A", .str "0451524935", .undef, .undef⟩)).2.store.rows =
      [⟨1, .str "T", .str "A", .str "0451524935", .null, .null⟩] ∧
    ¬ priceInRange .null ∧ ¬ stockInRange .null := by
  refine ⟨rfl, rfl, ?_, ?_⟩
  · rintro ⟨q, hq, -, -⟩
    have hn : parseFloatVal .null = .nan := by
      simp only [parseFloatVal, jsToString]
      decide
    rw [hn] at hq
    exact PNum.noConfusion hq
  · rintro ⟨n, hn2, -, -⟩
    have hn : parseIntVal .null = none := by
      simp only [parseIntVal, jsToString]
      decide
    rw [hn] at hn2
    exact Option.noConfusion hn2

/-- The create handler's validation gauntlet passes: required fields
truthy, ISBN valid, price and stock each absent or valid. -/
def createValidationPasses (b : ReqBody) : Prop :=
  truthy b.title = true ∧ truthy b.author = true ∧ truthy b.isbn = true ∧
  validateISBN b.isbn = .ok true ∧
  (isUndef b.price = true ∨ validatePrice b.price = true) ∧
  (isUndef b.stock = true ∨ validateStock b.stock = true)

/-- The update handler's validation gauntlet passes: the ISBN valid when
truthy, price and stock each absent or valid. -/
def updateValidationPasses (b : ReqBody) : Prop :=
  (truthy b.isbn = true → validateISBN b.isbn = .ok true) ∧
  (isUndef b.price = true ∨ validatePrice b.price = true) ∧
  (isUndef b.stock = true ∨ validateStock b.stock = true)

lemma createH_fail_state (s : Sys) (b : ReqBody) :
    (createH s b).1.status = 201 ∨ (createH s b).2 = s := by
  unfold createH
  repeat' split
  all_goals simp

lemma updateH_fail_state (s : Sys) (id : ℤ) (b : ReqBody) :
    (updateH s id b).1.status = 200 ∨ (updateH s id b).2 = s := by
  unfold updateH
  repeat' split
  all_goals simp

lemma deleteH_fail_state (s : Sys) (id : ℤ) :
    (deleteH s id).1.status = 200 ∨ (deleteH s id).2 = s := by
  unfold deleteH
  repeat' split
  all_goals simp

/-- C7: a write whose store operation fails leaves the cache exactly as
it was (no invalidation, no population), and the store's error comes
back unchanged through the HTTP mapping: a duplicate isbn on create is
the 409, any update-query failure the 500, zero affected rows the 404,
an unreachable store the 500. -/
theorem failed_write_no_cache_interaction :
    (∀ (s : Sys) (b : ReqBody) (resp : Resp) (s2 : Sys),
      exec s (.create b) = (resp, s2) → resp.status ≠ 201 → s2.cache = s.cache) ∧
    (∀ (s : Sys) (id : ℤ) (b : ReqBody) (resp : Resp) (s2 : Sys),
      exec s (.update id b) = (resp, s2) → resp.status ≠ 200 → s2.cache = s.cache) ∧
    (∀ (s : Sys) (id : ℤ) (resp : Resp) (s2 : Sys),
      exec s (.del id) = (resp, s2) → resp.status ≠ 200 → s2.cache = s.cache) ∧
    (∀ (s : Sys) (b : ReqBody), createValidationPasses b →
      ∀ e, insertRow s.store b.title b.author b.isbn (orZero b.price) (orZero b.stock) =
        .error e →
      (exec s (.create b)).1.status = (match e with | .dup => 409 | .other => 500)) ∧
    (∀ (s : Sys) (id : ℤ) (b : ReqBody), updateValidationPasses b →
      (∀ e, updateRow s.store id b.title b.author b.isbn b.price b.stock = .error e →
        (exec s (.update id b)).1.status = 500) ∧
      (∀ st, updateRow s.store id b.title b.author b.isbn b.price b.stock = .ok (0, st) →
        (exec s (.update id b)).1.status = 404)) ∧
    (∀ (s : Sys) (id : ℤ),
      (deleteRowStore s.store id = .error .other → (exec s (.del id)).1.status = 500) ∧
      (∀ st, deleteRowStore s.store id = .ok (0, st) →
        (exec s (.del id)).1.status = 404)) := by
  refine ⟨?_, ?_, ?_, ?_, ?_, ?_⟩
  · intro s b resp s2 hE hne
    have hE' : createH s b = (resp, s2) := hE
    rcases createH_fail_state s b with h | h
    · rw [hE'] at h
      exact absurd h hne
    · rw [hE'] at h
      exact congrArg Sys.cache h
  · intro s id b resp s2 hE hne
    have hE' : updateH s id b = (resp, s2) := hE
    rcases updateH_fail_state s id b with h | h
    · rw [hE'] at h
      exact absurd h hne
    · rw [hE'] at h
      exact congrArg Sys.cache h
  · intro s id resp s2 hE hne
    have hE' : deleteH s id = (resp, s2) := hE
    rcases deleteH_fail_state s id with h | h
    · rw [hE'] at h
      exact absurd h hne
    · rw [hE'] at h
      exact congrArg Sys.cache h
  · intro s b hval e hIns
    obtain ⟨ht, ha, hi, hv, hpOr, hsOr⟩ := hval
    have h1 : (!truthy b.title || !truthy b.author || !truthy b.isbn) = false := by
      simp [ht, ha, hi]
    have hp : (!isUndef b.price && !validatePrice b.price) = false := by
      rcases hpOr with hx | hx <;> simp [hx]
    have hs : (!isUndef b.stock && !validateStock b.stock) = false := by
      rcases hsOr with hx | hx <;> simp [hx]
    cases e <;> simp [exec, createH, h1, hv, hp, hs, hIns]
  · intro s id b hval
    obtain ⟨hvIf, hpOr, hsOr⟩ := hval
    have hv : (if truthy b.isbn then validateISBN b.isbn else .ok true) = .ok true := by
      by_cases hti : truthy b.isbn = true
      · rw [if_pos hti]; exact hvIf hti
      · rw [Bool.not_eq_true] at hti
        rw [hti]
        simp
    have hp : (!isUndef b.price && !validatePrice b.price) = false := by
      rcases hpOr with hx | hx <;> simp [hx]
    have hs : (!isUndef b.stock && !validateStock b.stock) = false := by
      rcases hsOr with hx | hx <;> simp [hx]
    constructor
    · intro e hU
      simp [exec, updateH, hv, hp, hs, hU]
    · intro st hU
      simp [exec, updateH, hv, hp, hs, hU]
  · intro s id
    constructor
    · intro hDel
      simp [exec, deleteH, hDel]
    · intro st hDel
      simp [exec, deleteH, hDel]

/-- C7 witness: deleting id 3 from an empty reachable store is the 404
(the store's NotFound unchanged) and leaves the cache untouched. -/
theorem failed_write_no_cache_interaction_witness :
    (exec ⟨⟨[], 1, true⟩, ⟨true, []⟩⟩ (.del 3)).1.status = 404 ∧
    (exec ⟨⟨[], 1, true⟩, ⟨true, []⟩⟩ (.del 3)).2.cache =
      (⟨⟨[], 1, true⟩, ⟨true, []⟩⟩ : Sys).cache := by
  constructor
  · exact (failed_write_no_cache_interaction.2.2.2.2.2 ⟨⟨[], 1, true⟩, ⟨true, []⟩⟩ 3).2
      ⟨[], 1, true⟩ rfl
  · exact failed_write_no_cache_interaction.2.2.1 ⟨⟨[], 1, true⟩, ⟨true, []⟩⟩ 3 _ _ rfl
      (by decide)

/-- C9 counterexample: with books 1 and 2 in the store, updating book 2
to book 1's isbn violates the uniqueness constraint (the store reports
`ER_DUP_ENTRY`), yet the Coordinator answers the generic
`500 Failed to update book` — byte-identical to its answer when the
store is simply unreachable — because the PUT handler's catch block has
no conflict branch. -/
theorem duplicate_isbn_update_generic :
    updateRow ⟨[⟨1, .str "A", .str "B", .str "0451524935", .num 5, .num 3⟩,
        ⟨2, .str "C", .str "D", .str "043942089X", .num 5, .num 3⟩], 3, true⟩
      2 (.str "C") (.str "D") (.str "0451524935") (.num 5) (.num 3) = .error .dup ∧
    (exec ⟨⟨[⟨1, .str "A", .str "B", .str "0451524935", .num 5, .num 3⟩,
        ⟨2, .str "C", .str "D", .str "043942089X", .num 5, .num 3⟩], 3, true⟩, ⟨false, []⟩⟩
      (.update 2 ⟨.str "C", .str "D", .str "0451524935", .num 5, .num 3⟩)).1 =
      ⟨500, .errMsg "Failed to update book"⟩ ∧
    (exec ⟨⟨[⟨1, .str "A", .str "B", .str "0451524935", .num 5, .num 3⟩,
        ⟨2, .str "C", .str "D", .str "043942089X", .num 5, .num 3⟩], 3, false⟩, ⟨false, []⟩⟩
      (.update 2 ⟨.str "C", .str "D", .str "0451524935", .num 5, .num 3⟩)).1 =
      ⟨500, .errMsg "Failed to update book"⟩ :=
  ⟨rfl, rfl, rfl⟩

/-- C9 amended: only the create path reports a duplicate isbn as the
distinct 409 Conflict; an update that violates the uniqueness
constraint is reported as the generic 500. -/
theorem duplicate_isbn_conflict :
    (∀ (s : Sys) (b : ReqBody), createValidationPasses b →
      insertRow s.store b.title b.author b.isbn (orZero b.price) (orZero b.stock) =
        .error .dup →
      (exec s (.create b)).1 = ⟨409, .errMsg "Book with this ISBN already exists"⟩) ∧
    (∀ (s : Sys) (id : ℤ) (b : ReqBody), updateValidationPasses b →
      updateRow s.store id b.title b.author b.isbn b.price b.stock = .error .dup →
      (exec s (.update id b)).1 = ⟨500, .errMsg "Failed to update book"⟩) := by
  constructor
  · intro s b hval hIns
    obtain ⟨ht, ha, hi, hv, hpOr, hsOr⟩ := hval
    have h1 : (!truthy b.title || !truthy b.author || !truthy b.isbn) = false := by
      simp [ht, ha, hi]
    have hp : (!isUndef b.price && !validatePrice b.price) = false := by
      rcases hpOr with hx | hx <;> simp [hx]
    have hs : (!isUndef b.stock && !validateStock b.stock) = false := by
      rcases hsOr with hx | hx <;> simp [hx]
    simp [exec, createH, h1, hv, hp, hs, hIns]
  · intro s id b hval hU
    obtain ⟨hvIf, hpOr, hsOr⟩ := hval
    have hv : (if truthy b.isbn then validateISBN b.isbn else .ok true) = .ok true := by
      by_cases hti : truthy b.isbn = true
      · rw [if_pos hti]; exact hvIf hti
      · rw [Bool.not_eq_true] at hti
        rw [hti]
        simp
    have hp : (!isUndef b.price && !validatePrice b.price) = false := by
      rcases hpOr with hx | hx <;> simp [hx]
    have hs : (!isUndef b.stock && !validateStock b.stock) = false := by
      rcases hsOr with hx | hx <;> simp [hx]
    simp [exec, updateH, hv, hp, hs, hU]

/-- C9 witness: creating a second book with an isbn already present
yields the 409 Conflict. -/
theorem duplicate_isbn_conflict_witness :
    (exec ⟨⟨[⟨1, .str "A", .str "B", .str "0451524935", .num 5, .num 3⟩], 2, true⟩,
        ⟨true, []⟩⟩
      (.create ⟨.str "C", .str "D", .str "0451524935", .num 5, .num 3⟩)).1 =
      ⟨409, .errMsg "Book with this ISBN already exists"⟩ :=
  duplicate_isbn_conflict.1
    ⟨⟨[⟨1, .str "A", .str "B", .str "0451524935", .num 5, .num 3⟩], 2, true⟩, ⟨true, []⟩⟩
    ⟨.str "C", .str "D", .str "0451524935", .num 5, .num 3⟩
    ⟨rfl, rfl, rfl, rfl, Or.inr rfl, Or.inr rfl⟩ rfl

lemma createH_cache_blind (st : StoreState) (c c' : CacheState) (b : ReqBody) :
    (createH ⟨st, c⟩ b).1 = (createH ⟨st, c'⟩ b).1 ∧
    (createH ⟨st, c⟩ b).2.store = (createH ⟨st, c'⟩ b).2.store := by
  by_cases h1 : (!truthy b.title || !truthy b.author || !truthy b.isbn) = true
  · simp [createH, h1]
  · cases hv : validateISBN b.isbn with
    | error e => simp [createH, h1, hv]
    | ok isbnOk =>
      cases isbnOk with
      | false => simp [createH, h1, hv]
      | true =>
        by_cases hp : (!isUndef b.price && !validatePrice b.price) = true
        · simp [createH, h1, hv, hp]
        · by_cases hs : (!isUndef b.stock && !validateStock b.stock) = true
          · simp [createH, h1, hv, hp, hs]
          · cases hIns : insertRow st b.title b.author b.isbn
              (orZero b.price) (orZero b.stock) with
            | error e => cases e <;> simp [createH, h1, hv, hp, hs, hIns]
            | ok p =>
              obtain ⟨newId, st2⟩ := p
              simp [createH, h1, hv, hp, hs, hIns]

lemma updateH_cache_blind (st : StoreState) (c c' : CacheState) (id : ℤ) (b : ReqBody) :
    (updateH ⟨st, c⟩ id b).1 = (updateH ⟨st, c'⟩ id b).1 ∧
    (updateH ⟨st, c⟩ id b).2.store = (updateH ⟨st, c'⟩ id b).2.store := by
  cases hv : (if truthy b.isbn then validateISBN b.isbn else .ok true) with
  | error e => simp [updateH, hv]
  | ok isbnOk =>
    cases isbnOk with
    | false => simp [updateH, hv]
    | true =>
      by_cases hp : (!isUndef b.price && !validatePrice b.price) = true
      · simp [updateH, hv, hp]
      · by_cases hs : (!isUndef b.stock && !validateStock b.stock) = true
        · simp [updateH, hv, hp, hs]
        · cases hU : updateRow st id b.title b.author b.isbn b.price b.stock with
          | error e => simp [updateH, hv, hp, hs, hU]
          | ok p =>
            obtain ⟨n, st2⟩ := p
            cases n <;> simp [updateH, hv, hp, hs, hU]

lemma deleteH_cache_blind (st : StoreState) (c c' : CacheState) (id : ℤ) :
    (deleteH ⟨st, c⟩ id).1 = (deleteH ⟨st, c'⟩ id).1 ∧
    (deleteH ⟨st, c⟩ id).2.store = (deleteH ⟨st, c'⟩ id).2.store := by
  cases hD : deleteRowStore st id with
  | error e => simp [deleteH, hD]
  | ok p =>
    obtain ⟨n, st2⟩ := p
    cases n <;> simp [deleteH, hD]

/-- C1 counterexample: with book 1 in the store and a fresh cache entry
for it, Read-one(1) with the cache enabled is a hit and returns the
book with the extra `fromCache: true` marker, while the same read with
the Cache Gateway disconnected returns the bare book — same status,
different response bodies. -/
theorem cache_transparency_cex :
    (exec (disconnect ⟨⟨[⟨1, .str "A", .str "B", .str "0451524935", .num 5, .num 3⟩], 2, true⟩,
        ⟨true, [(bookKey 1, .row ⟨1, .str "A", .str "B", .str "0451524935", .num 5, .num 3⟩)]⟩⟩)
      (.readOne 1)).1.body =
      .book ⟨1, .str "A", .str "B", .str "0451524935", .num 5, .num 3⟩ false ∧
    (exec ⟨⟨[⟨1, .str "A", .str "B", .str "0451524935", .num 5, .num 3⟩], 2, true⟩,
        ⟨true, [(bookKey 1, .row ⟨1, .str "A", .str "B", .str "0451524935", .num 5, .num 3⟩)]⟩⟩
      (.readOne 1)).1.body =
      .book ⟨1, .str "A", .str "B", .str "0451524935", .num 5, .num 3⟩ true ∧
    Body.book ⟨1, .str "A", .str "B", .str "0451524935", .num 5, .num 3⟩ false ≠
      Body.book ⟨1, .str "A", .str "B", .str "0451524935", .num 5, .num 3⟩ true := by
  refine ⟨rfl, rfl, ?_⟩
  intro h
  injection h with h1 h2
  exact Bool.noConfusion h2

/-- C1 amended: provided every cache entry agrees with the store and
the store is reachable, every Coordinator operation run with the Cache
Gateway disconnected yields the same status, the same resulting store
state, and the same response body as with the cache enabled — except
that a cache-hit Read-one additionally carries the `fromCache: true`
marker, erased here by `stripMark`. -/
theorem cache_transparency (s : Sys) (op : Op) (hcoh : coherent s)
    (hup : s.store.up = true) :
    (exec (disconnect s) op).1.status = (exec s op).1.status ∧
    stripMark (exec (disconnect s) op).1.body = stripMark (exec s op).1.body ∧
    (exec (disconnect s) op).2.store = (exec s op).2.store := by
  cases op with
  | readAll =>
    have hfa : fetchAll s.store = .ok s.store.rows := by simp [fetchAll, hup]
    by_cases hc : s.cache.connected = true
    · cases hl : s.cache.entries.lookup "books:all" with
      | none =>
        simp [exec, readAllH, getFromCache, disconnect, hc, hl, hfa]
      | some e =>
        have he := hcoh.1 e hl
        subst he
        simp [exec, readAllH, getFromCache, disconnect, hc, hl, hfa, entryBody, stripMark]
    · rw [Bool.not_eq_true] at hc
      simp [exec, readAllH, getFromCache, disconnect, hc, hfa]
  | readOne id =>
    by_cases hc : s.cache.connected = true
    · cases hl : s.cache.entries.lookup (bookKey id) with
      | none =>
        cases hfb : fetchById s.store id with
        | error e => simp [exec, readOneH, getFromCache, disconnect, hc, hl, hfb]
        | ok o => cases o <;> simp [exec, readOneH, getFromCache, disconnect, hc, hl, hfb]
      | some e =>
        obtain ⟨r, hr, he⟩ := hcoh.2 id e hl
        subst he
        have hfb : fetchById s.store id = .ok (some r) := by
          simp [fetchById, hup, hr]
        simp [exec, readOneH, getFromCache, disconnect, hc, hl, hfb, entryBodyMarked,
          stripMark]
    · rw [Bool.not_eq_true] at hc
      cases hfb : fetchById s.store id with
      | error e => simp [exec, readOneH, getFromCache, disconnect, hc, hfb]
      | ok o => cases o <;> simp [exec, readOneH, getFromCache, disconnect, hc, hfb]
  | create b =>
    obtain ⟨h1, h2⟩ := createH_cache_blind s.store (disconnect s).cache s.cache b
    exact ⟨congrArg Resp.status h1, congrArg (fun x => stripMark x.body) h1, h2⟩
  | update id b =>
    obtain ⟨h1, h2⟩ := updateH_cache_blind s.store (disconnect s).cache s.cache id b
    exact ⟨congrArg Resp.status h1, congrArg (fun x => stripMark x.body) h1, h2⟩
  | del id =>
    obtain ⟨h1, h2⟩ := deleteH_cache_blind s.store (disconnect s).cache s.cache id
    exact ⟨congrArg Resp.status h1, congrArg (fun x => stripMark x.body) h1, h2⟩

/-- C1 witness: on a store holding book 1 with a coherent (empty)
connected cache, Read-one(1) disconnected and enabled agree up to the
marker. -/
theorem cache_transparency_witness :
    (exec (disconnect ⟨⟨[⟨1, .str "A", .str "B", .str "0451524935", .num 5, .num 3⟩], 2, true⟩,
        ⟨true, []⟩⟩) (.readOne 1)).1.status =
      (exec ⟨⟨[⟨1, .str "A", .str "B", .str "0451524935", .num 5, .num 3⟩], 2, true⟩,
        ⟨true, []⟩⟩ (.readOne 1)).1.status ∧
    stripMark (exec (disconnect ⟨⟨[⟨1, .str "A", .str "B", .str "0451524935", .num 5, .num 3⟩],
        2, true⟩, ⟨true, []⟩⟩) (.readOne 1)).1.body =
      stripMark (exec ⟨⟨[⟨1, .str "A", .str "B", .str "0451524935", .num 5, .num 3⟩], 2, true⟩,
        ⟨true, []⟩⟩ (.readOne 1)).1.body ∧
    (exec (disconnect ⟨⟨[⟨1, .str "A", .str "B", .str "0451524935", .num 5, .num 3⟩], 2, true⟩,
        ⟨true, []⟩⟩) (.readOne 1)).2.store =
      (exec ⟨⟨[⟨1, .str "A", .str "B", .str "0451524935", .num 5, .num 3⟩], 2, true⟩,
        ⟨true, []⟩⟩ (.readOne 1)).2.store :=
  cache_transparency
    ⟨⟨[⟨1, .str "A", .str "B", .str "0451524935", .num 5, .num 3⟩], 2, true⟩, ⟨true, []⟩⟩
    (.readOne 1)
    ⟨fun e h => by simp [List.lookup] at h, fun i e h => by simp [List.lookup] at h⟩
    rfl

end Bookstore
